import Mathlib

/-
Verification of the transaction intake pipeline of the
financial-compliance-risk-analysis-pipeline backend
(src/backend-python/app.py), as a shallow embedding in Lean 4.

External collaborators (Google token verification together with the
json.dumps encoding of the claims, the remote risk-scoring response,
DynamoDB put/scan outcomes, json-based email extraction, uuid and clock)
are modelled as explicit oracle parameters; everything else is translated
from the source line by line.  Python floats appearing as transaction
amounts are modelled as rationals, which is exact for the order
comparisons the code performs.
-/

namespace ComplianceApp

/-- An HTTP error surfaced to the caller: status code and detail string,
as raised by fastapi.HTTPException in app.py. -/
structure HTTPError where
  status : Nat
  detail : String
deriving Repr, DecidableEq

/-- Truthiness of an optional string, as Python evaluates `if s:` for a
value that is either None or a str: None and the empty string are falsy. -/
def isTruthy : Option String → Bool
  | some s => !(s == "")
  | none => false

/-- Whether the first character list is a prefix of the second. -/
def charListPrefix : List Char → List Char → Bool
  | [], _ => true
  | _ :: _, [] => false
  | a :: as, b :: bs => a == b && charListPrefix as bs

/-- Python str.startswith over the code points of the string. -/
def pyStartsWith (s p : String) : Bool := charListPrefix p.data s.data

/-- Python slicing s[n:] over the code points of the string; used for
`authorization.split(" ", 1)[1]`, which on a string starting with
"Bearer " is everything after the first 7 characters. -/
def pyDrop (s : String) (n : Nat) : String := ⟨s.data.drop n⟩

/-- Python str.lower over the code points of the string (the values it
is compared against here are ASCII). -/
def pyLower (s : String) : String := ⟨s.data.map Char.toLower⟩

/-- Environment-derived configuration of app.py: whether the boto3 import
at module top succeeded, the DDB_TABLE value, the already-parsed
HIGH_RISK_AMOUNT (int(...) with default 10000), and the raw ALLOW_CLEAR
string with its getenv default "false" applied. -/
structure Config where
  boto3Available : Bool
  ddbTable : Option String
  highRiskAmount : Int
  allowClearEnv : String
deriving Repr, DecidableEq

/-- Evaluation of `os.getenv("ALLOW_CLEAR", "false").lower() in ("1", "true", "yes")`
from clear_transactions. -/
def parseAllowClear (s : String) : Bool :=
  pyLower s == "1" || pyLower s == "true" || pyLower s == "yes"

/-- The request body of POST /transactions (class Transaction): the
caller-settable fields.  high_risk and risk_level are server-computed and
appear on the produced record instead. -/
structure Transaction where
  amount : Rat
  currency : String
  merchant : String
deriving Repr, DecidableEq

/-- The record dict assembled by create_transaction and persisted by
save_transaction_record. -/
structure TransactionRecord where
  id : String
  timestamp : Int
  user : String
  amount : Rat
  currency : String
  merchant : String
  risk_level : String
  high_risk : Bool
deriving Repr, DecidableEq

/-- The in-memory fallback branch of save_transaction_record:
`transactions_store.insert(0, record)` followed by
`if len(transactions_store) > 200: transactions_store.pop()`
(list.pop() removes the last element). -/
def memInsert (record : TransactionRecord) (store : List TransactionRecord) :
    List TransactionRecord :=
  let s := record :: store
  if s.length > 200 then s.dropLast else s

/-- save_transaction_record (app.py lines 43-59).  `putOk` is the oracle
for the DynamoDB put_item call: true means the call returns, false means
it raises BotoCoreError/ClientError.  Returns the Python return value
paired with the resulting in-memory store. -/
def save_transaction_record (cfg : Config) (putOk : Bool)
    (record : TransactionRecord) (store : List TransactionRecord) :
    Bool × List TransactionRecord :=
  if cfg.boto3Available && isTruthy cfg.ddbTable then
    if putOk then (true, store)
    else (false, memInsert record store)
  else (false, memInsert record store)

/-- Identity resolution at the top of create_transaction (lines 64-79).
`verifyEncode` is the oracle for verify_oauth2_token followed by
json.dumps of the name/email claims: `some u` means verification
succeeded and produced the encoded identity string u, `none` means
verification raised.  Returns the final value of the user_header
variable, or the 401 raised on a failed verification. -/
def resolveUserHeader (verifyEncode : String → Option String)
    (xUser authorization : Option String) : Except HTTPError (Option String) :=
  if isTruthy authorization && pyStartsWith (authorization.getD "") "Bearer " then
    match verifyEncode (pyDrop (authorization.getD "") 7) with
    | some encoded => .ok (some encoded)
    | none => .error ⟨401, "Invalid Google ID token"⟩
  else if isTruthy xUser then .ok xUser
  else .ok none

/-- The is_high computation of create_transaction (lines 109-121):
an if/elif chain on the risk_level value extracted from the risk-service
response, falling back to `transaction.amount >= HIGH_RISK_AMOUNT`. -/
def computeIsHigh (riskLevelResp : Option String) (amount : Rat)
    (highRiskAmount : Int) : Bool :=
  match riskLevelResp with
  | some "HIGH" => true
  | some "MEDIUM" => false
  | some "LOW" => false
  | _ => decide (amount ≥ (highRiskAmount : Rat))

/-- The displayed risk_level computation of create_transaction
(lines 125-135): a recognized tier is used as-is, otherwise the level is
derived from the fixed amount bands. -/
def computeRiskLevel (riskLevelResp : Option String) (amount : Rat) : String :=
  match riskLevelResp with
  | some "HIGH" => "HIGH"
  | some "MEDIUM" => "MEDIUM"
  | some "LOW" => "LOW"
  | _ =>
    if amount > (10000 : Rat) then "HIGH"
    else if amount > (1000 : Rat) then "MEDIUM"
    else "LOW"

/-- create_transaction (app.py lines 62-156).  Oracles: `verifyEncode`
for token verification plus claim encoding; `riskLevelResp` for
`risk_data.get("risk_level")` where `none` covers transport failure,
non-JSON replies, a non-dict body or a missing key; `putOk` for the
DynamoDB put; `newId` for uuid.uuid4 and `now` for time.time.  Returns
the HTTP outcome paired with the resulting in-memory store (unchanged
when the request is rejected). -/
def create_transaction (cfg : Config)
    (verifyEncode : String → Option String)
    (riskLevelResp : Option String) (putOk : Bool)
    (newId : String) (now : Int)
    (txn : Transaction)
    (xUser authorization : Option String)
    (store : List TransactionRecord) :
    Except HTTPError TransactionRecord × List TransactionRecord :=
  match resolveUserHeader verifyEncode xUser authorization with
  | .error e => (.error e, store)
  | .ok userHeaderOpt =>
    if !(isTruthy userHeaderOpt) then
      (.error ⟨401, "Missing authentication. Provide Authorization Bearer token or X-User header."⟩,
       store)
    else
      let userHeader := userHeaderOpt.getD ""
      let isHigh := computeIsHigh riskLevelResp txn.amount cfg.highRiskAmount
      let riskLevel := computeRiskLevel riskLevelResp txn.amount
      let record : TransactionRecord :=
        ⟨newId, now, userHeader, txn.amount, txn.currency, txn.merchant, riskLevel, isHigh⟩
      let saved := save_transaction_record cfg putOk record store
      (.ok record, saved.snd)

/-- The DynamoDB sort in list_transactions (line 209):
`sorted(items, key=lambda x: int(x.get("timestamp", 0)), reverse=True)`.
Python sort is stable and reverse=True preserves the original order of
ties, which List.mergeSort with a non-strict descending comparison also
does. -/
def sortByTimestampDesc (items : List TransactionRecord) : List TransactionRecord :=
  items.mergeSort (fun a b => decide (b.timestamp ≤ a.timestamp))

/-- The retrieval phase of list_transactions (lines 200-214), before
filtering.  `ddbScan` is the oracle for table.scan: `none` means the call
raised BotoCoreError/ClientError, `some items` the retrieved Items list. -/
def scan_transactions (cfg : Config) (ddbScan : Option (List TransactionRecord))
    (limit : Nat) (store : List TransactionRecord) : List TransactionRecord :=
  if cfg.boto3Available && isTruthy cfg.ddbTable then
    match ddbScan with
    | some items => (sortByTimestampDesc items).take limit
    | none => store.take limit
  else store.take limit

/-- The per-record test of the x_user filter loop in list_transactions
(lines 228-239): skip records with a falsy user, keep an exact string
match, otherwise keep when both the header email and the stored email
decode to truthy values that are equal.  `extractEmail` is the oracle for
the inner extract_email helper (json.loads then .get("email"), None on
any exception); `hdrEmail` is its value on the filter string. -/
def userMatches (hdrEmail : Option String) (extractEmail : String → Option String)
    (xu : String) (u : String) : Bool :=
  isTruthy (some u) &&
    (u == xu ||
      (match hdrEmail, extractEmail u with
       | some he, some se => isTruthy (some he) && isTruthy (some se) && he == se
       | _, _ => false))

/-- list_transactions (app.py lines 193-242): retrieval phase followed by
the optional x_user filter and the final `filtered[:limit]` truncation. -/
def list_transactions (cfg : Config) (ddbScan : Option (List TransactionRecord))
    (extractEmail : String → Option String)
    (limit : Nat) (xUser : Option String) (store : List TransactionRecord) :
    List TransactionRecord :=
  let items := scan_transactions cfg ddbScan limit store
  if isTruthy xUser then
    let xu := xUser.getD ""
    let hdrEmail := extractEmail xu
    (items.filter (fun it => userMatches hdrEmail extractEmail xu it.user)).take limit
  else items

/-- clear_transactions (app.py lines 245-253): refuses with 403 when
DDB_TABLE is truthy and ALLOW_CLEAR does not parse as an override,
otherwise empties the in-memory store.  Returns the HTTP outcome paired
with the resulting store. -/
def clear_transactions (cfg : Config) (store : List TransactionRecord) :
    Except HTTPError Unit × List TransactionRecord :=
  if isTruthy cfg.ddbTable && !(parseAllowClear cfg.allowClearEnv) then
    (.error ⟨403, "Clearing DynamoDB-backed records is disabled in this environment."⟩,
     store)
  else (.ok (), [])

/-- A sample record used to instantiate witnesses. -/
def sampleRecord : TransactionRecord :=
  ⟨"id-0", 0, "alice", 5, "USD", "ACME", "LOW", false⟩

end ComplianceApp

namespace ComplianceApp

/-- On an unrecognized risk-service value the is_high chain falls through
to the amount-threshold comparison. -/
theorem computeIsHigh_unrec (rsp : Option String) (amount : Rat) (t : Int)
    (h1 : rsp ≠ some "HIGH") (h2 : rsp ≠ some "MEDIUM") (h3 : rsp ≠ some "LOW") :
    computeIsHigh rsp amount t = decide (amount ≥ (t : Rat)) := by
  unfold computeIsHigh
  split
  · exact absurd rfl h1
  · exact absurd rfl h2
  · exact absurd rfl h3
  · rfl

/-- On an unrecognized risk-service value the displayed tier comes from
the fixed amount bands. -/
theorem computeRiskLevel_unrec (rsp : Option String) (amount : Rat)
    (h1 : rsp ≠ some "HIGH") (h2 : rsp ≠ some "MEDIUM") (h3 : rsp ≠ some "LOW") :
    computeRiskLevel rsp amount =
      (if amount > (10000 : Rat) then "HIGH"
       else if amount > (1000 : Rat) then "MEDIUM" else "LOW") := by
  unfold computeRiskLevel
  split
  · exact absurd rfl h1
  · exact absurd rfl h2
  · exact absurd rfl h3
  · rfl

/-- Reduction of create_transaction on the X-User identity path. -/
theorem create_transaction_xuser (cfg : Config)
    (verifyEncode : String → Option String)
    (riskLevelResp : Option String) (putOk : Bool) (newId : String) (now : Int)
    (txn : Transaction) (u : String) (store : List TransactionRecord)
    (hu : u ≠ "") :
    create_transaction cfg verifyEncode riskLevelResp putOk newId now txn
        (some u) none store =
      (.ok ⟨newId, now, u, txn.amount, txn.currency, txn.merchant,
            computeRiskLevel riskLevelResp txn.amount,
            computeIsHigh riskLevelResp txn.amount cfg.highRiskAmount⟩,
       (save_transaction_record cfg putOk
          ⟨newId, now, u, txn.amount, txn.currency, txn.merchant,
           computeRiskLevel riskLevelResp txn.amount,
           computeIsHigh riskLevelResp txn.amount cfg.highRiskAmount⟩ store).snd) := by
  have hres : resolveUserHeader verifyEncode (some u) none = .ok (some u) := by
    simp [resolveUserHeader, isTruthy, hu]
  unfold create_transaction
  rw [hres]
  simp [isTruthy, hu]

/-- C1: for a create-transaction request in which the risk service
provides no recognized tier, the returned record has
high_risk = (amount ≥ configured high-risk threshold) and its risk_level
comes from the fixed bands (amount > 10000 gives HIGH, amount > 1000
gives MEDIUM, else LOW); with the default threshold 10000, an amount of
exactly 10000 yields high_risk = true with risk_level = MEDIUM. -/
theorem claim_C1_fallback_heuristic_and_bands (cfg : Config)
    (verifyEncode : String → Option String)
    (riskLevelResp : Option String) (putOk : Bool) (newId : String) (now : Int)
    (txn : Transaction) (u : String) (store : List TransactionRecord)
    (hu : u ≠ "")
    (h1 : riskLevelResp ≠ some "HIGH") (h2 : riskLevelResp ≠ some "MEDIUM")
    (h3 : riskLevelResp ≠ some "LOW") :
    ∃ rec store2,
      create_transaction cfg verifyEncode riskLevelResp putOk newId now txn
          (some u) none store = (.ok rec, store2) ∧
      rec.high_risk = decide (txn.amount ≥ (cfg.highRiskAmount : Rat)) ∧
      rec.risk_level =
        (if txn.amount > (10000 : Rat) then "HIGH"
         else if txn.amount > (1000 : Rat) then "MEDIUM" else "LOW") ∧
      (cfg.highRiskAmount = 10000 → txn.amount = 10000 →
        rec.high_risk = true ∧ rec.risk_level = "MEDIUM") := by
  refine ⟨_, _, create_transaction_xuser cfg verifyEncode riskLevelResp putOk
    newId now txn u store hu, ?_, ?_, ?_⟩
  · exact computeIsHigh_unrec riskLevelResp txn.amount cfg.highRiskAmount h1 h2 h3
  · exact computeRiskLevel_unrec riskLevelResp txn.amount h1 h2 h3
  · intro hthr hamt
    constructor
    · show computeIsHigh riskLevelResp txn.amount cfg.highRiskAmount = true
      rw [computeIsHigh_unrec riskLevelResp txn.amount cfg.highRiskAmount h1 h2 h3,
        hamt, hthr]
      decide
    · show computeRiskLevel riskLevelResp txn.amount = "MEDIUM"
      rw [computeRiskLevel_unrec riskLevelResp txn.amount h1 h2 h3, hamt]
      decide

/-- Witness for C1 at amount 10000, default threshold, no risk service. -/
theorem claim_C1_witness :
    ∃ rec store2,
      create_transaction ⟨false, none, 10000, "false"⟩ (fun _ => none) none true
          "id-1" 5 ⟨10000, "USD", "ACME"⟩ (some "alice") none [] = (.ok rec, store2) ∧
      rec.high_risk = decide ((10000 : Rat) ≥ (((10000 : Int)) : Rat)) ∧
      rec.risk_level =
        (if (10000 : Rat) > (10000 : Rat) then "HIGH"
         else if (10000 : Rat) > (1000 : Rat) then "MEDIUM" else "LOW") ∧
      ((10000 : Int) = 10000 → (10000 : Rat) = 10000 →
        rec.high_risk = true ∧ rec.risk_level = "MEDIUM") :=
  claim_C1_fallback_heuristic_and_bands ⟨false, none, 10000, "false"⟩ (fun _ => none)
    none true "id-1" 5 ⟨10000, "USD", "ACME"⟩ "alice" [] (by decide) (by decide)
    (by decide) (by decide)

/-- C2: when the risk service returns a recognized tier, the returned
record uses that tier as-is as risk_level, and high_risk is true exactly
when the tier is HIGH, regardless of the amount. -/
theorem claim_C2_recognized_tier_used_as_is (cfg : Config)
    (verifyEncode : String → Option String)
    (tier : String) (putOk : Bool) (newId : String) (now : Int)
    (txn : Transaction) (u : String) (store : List TransactionRecord)
    (hu : u ≠ "")
    (ht : tier = "HIGH" ∨ tier = "MEDIUM" ∨ tier = "LOW") :
    ∃ rec store2,
      create_transaction cfg verifyEncode (some tier) putOk newId now txn
          (some u) none store = (.ok rec, store2) ∧
      rec.risk_level = tier ∧
      rec.high_risk = decide (tier = "HIGH") := by
  refine ⟨_, _, create_transaction_xuser cfg verifyEncode (some tier) putOk
    newId now txn u store hu, ?_, ?_⟩
  · show computeRiskLevel (some tier) txn.amount = tier
    rcases ht with h | h | h <;> subst h <;> rfl
  · show computeIsHigh (some tier) txn.amount cfg.highRiskAmount = decide (tier = "HIGH")
    rcases ht with h | h | h <;> subst h <;> rfl

/-- Witness for C2: a LOW reply on a 50000 amount still gives
high_risk = false with risk_level LOW. -/
theorem claim_C2_witness :
    ∃ rec store2,
      create_transaction ⟨false, none, 10000, "false"⟩ (fun _ => none) (some "LOW")
          true "id-1" 5 ⟨50000, "USD", "ACME"⟩ (some "alice") none []
        = (.ok rec, store2) ∧
      rec.risk_level = "LOW" ∧
      rec.high_risk = decide (("LOW" : String) = "HIGH") :=
  claim_C2_recognized_tier_used_as_is ⟨false, none, 10000, "false"⟩ (fun _ => none)
    "LOW" true "id-1" 5 ⟨50000, "USD", "ACME"⟩ "alice" [] (by decide)
    (Or.inr (Or.inr rfl))

/-- The displayed tier is always one of the three recognized values. -/
theorem computeRiskLevel_mem (rsp : Option String) (amount : Rat) :
    computeRiskLevel rsp amount = "HIGH" ∨ computeRiskLevel rsp amount = "MEDIUM" ∨
      computeRiskLevel rsp amount = "LOW" := by
  unfold computeRiskLevel
  split
  · exact Or.inl rfl
  · exact Or.inr (Or.inl rfl)
  · exact Or.inr (Or.inr rfl)
  · split
    · exact Or.inl rfl
    · split
      · exact Or.inr (Or.inl rfl)
      · exact Or.inr (Or.inr rfl)

/-- save_transaction_record either leaves the memory store alone (durable
write) or performs the bounded prepend. -/
theorem save_snd_cases (cfg : Config) (putOk : Bool) (rec : TransactionRecord)
    (store : List TransactionRecord) :
    (save_transaction_record cfg putOk rec store).snd = store ∨
    (save_transaction_record cfg putOk rec store).snd = memInsert rec store := by
  unfold save_transaction_record
  split
  · split
    · exact Or.inl rfl
    · exact Or.inr rfl
  · exact Or.inr rfl

/-- Inversion of a successful create_transaction: the returned record
carries the computed tier and flag, and the resulting store is
save_transaction_record's output on that record. -/
theorem create_transaction_ok_inv (cfg : Config)
    (verifyEncode : String → Option String)
    (riskLevelResp : Option String) (putOk : Bool) (newId : String) (now : Int)
    (txn : Transaction) (xUser authorization : Option String)
    (store : List TransactionRecord) (rec : TransactionRecord)
    (store2 : List TransactionRecord)
    (h : create_transaction cfg verifyEncode riskLevelResp putOk newId now txn
        xUser authorization store = (.ok rec, store2)) :
    rec.risk_level = computeRiskLevel riskLevelResp txn.amount ∧
    rec.high_risk = computeIsHigh riskLevelResp txn.amount cfg.highRiskAmount ∧
    store2 = (save_transaction_record cfg putOk rec store).snd := by
  unfold create_transaction at h
  cases hr : resolveUserHeader verifyEncode xUser authorization with
  | error e => rw [hr] at h; simp at h
  | ok uh =>
    rw [hr] at h
    cases htu : isTruthy uh with
    | false => simp [htu] at h
    | true =>
      simp [htu] at h
      obtain ⟨h1, h2⟩ := h
      subst h1
      exact ⟨rfl, rfl, h2.symm⟩

/-- C3: every record returned by a successful create-transaction has a
risk_level among HIGH, MEDIUM and LOW, and the persisted store is either
untouched (durable write) or extends the memory store with that same
record: the tier is never left UNKNOWN or absent. -/
theorem claim_C3_risk_level_always_recognized (cfg : Config)
    (verifyEncode : String → Option String)
    (riskLevelResp : Option String) (putOk : Bool) (newId : String) (now : Int)
    (txn : Transaction) (xUser authorization : Option String)
    (store : List TransactionRecord) (rec : TransactionRecord)
    (store2 : List TransactionRecord)
    (h : create_transaction cfg verifyEncode riskLevelResp putOk newId now txn
        xUser authorization store = (.ok rec, store2)) :
    (rec.risk_level = "HIGH" ∨ rec.risk_level = "MEDIUM" ∨ rec.risk_level = "LOW") ∧
    (store2 = store ∨ store2 = memInsert rec store) := by
  obtain ⟨h1, _, h3⟩ := create_transaction_ok_inv cfg verifyEncode riskLevelResp
    putOk newId now txn xUser authorization store rec store2 h
  constructor
  · rw [h1]
    exact computeRiskLevel_mem riskLevelResp txn.amount
  · rw [h3]
    exact save_snd_cases cfg putOk rec store

/-- Witness for C3 on a request answered by an unreachable risk service. -/
theorem claim_C3_witness :
    (((⟨"id-1", 5, "alice", 10000, "USD", "ACME", "MEDIUM", true⟩ :
        TransactionRecord).risk_level = "HIGH" ∨
      (⟨"id-1", 5, "alice", 10000, "USD", "ACME", "MEDIUM", true⟩ :
        TransactionRecord).risk_level = "MEDIUM" ∨
      (⟨"id-1", 5, "alice", 10000, "USD", "ACME", "MEDIUM", true⟩ :
        TransactionRecord).risk_level = "LOW") ∧
     ([(⟨"id-1", 5, "alice", 10000, "USD", "ACME", "MEDIUM", true⟩ :
         TransactionRecord)] = ([] : List TransactionRecord) ∨
      [(⟨"id-1", 5, "alice", 10000, "USD", "ACME", "MEDIUM", true⟩ :
         TransactionRecord)] =
        memInsert ⟨"id-1", 5, "alice", 10000, "USD", "ACME", "MEDIUM", true⟩ [])) :=
  claim_C3_risk_level_always_recognized ⟨false, none, 10000, "false"⟩ (fun _ => none)
    none true "id-1" 5 ⟨10000, "USD", "ACME"⟩ (some "alice") none []
    ⟨"id-1", 5, "alice", 10000, "USD", "ACME", "MEDIUM", true⟩
    [⟨"id-1", 5, "alice", 10000, "USD", "ACME", "MEDIUM", true⟩] (by rfl)

/-- A bounded prepend keeps the memory store within 200 records. -/
theorem memInsert_length_le (r : TransactionRecord) (s : List TransactionRecord)
    (h : s.length ≤ 200) : (memInsert r s).length ≤ 200 := by
  simp only [memInsert]
  split
  · simp only [List.length_dropLast, List.length_cons]
    omega
  next hle =>
    simp only [List.length_cons, gt_iff_lt, not_lt] at hle
    exact hle

/-- Folding bounded prepends over any insert sequence keeps the store
within 200 records, from any starting state within the bound. -/
theorem foldl_memInsert_le (inserts : List TransactionRecord)
    (acc : List TransactionRecord) (h : acc.length ≤ 200) :
    (List.foldl (fun s rr => memInsert rr s) acc inserts).length ≤ 200 := by
  induction inserts generalizing acc with
  | nil => simpa using h
  | cons a t ih => exact ih (memInsert a acc) (memInsert_length_le a acc h)

/-- C4: the in-memory store never exceeds 200 records across any sequence
of inserts; each insert prepends the new record (newest-first) and, when
the store would exceed 200, evicts the oldest (last) entry. -/
theorem claim_C4_memory_store_bounded (inserts : List TransactionRecord)
    (r : TransactionRecord) (store : List TransactionRecord)
    (h : store.length ≤ 200) :
    (List.foldl (fun s rr => memInsert rr s) [] inserts).length ≤ 200 ∧
    (memInsert r store).length ≤ 200 ∧
    (memInsert r store).head? = some r ∧
    (store.length = 200 → memInsert r store = (r :: store).dropLast) := by
  refine ⟨foldl_memInsert_le inserts [] (by simp), memInsert_length_le r store h,
    ?_, ?_⟩
  · simp only [memInsert]
    split
    next hgt =>
      match store with
      | [] => simp at hgt
      | b :: t => rfl
    next => rfl
  · intro h200
    simp only [memInsert]
    split
    · rfl
    next hne =>
      exfalso
      simp only [List.length_cons, h200, gt_iff_lt, not_lt] at hne
      omega

/-- Witness for C4 on a store already holding 200 records. -/
theorem claim_C4_witness :
    (List.foldl (fun s rr => memInsert rr s) [] ([] : List TransactionRecord)).length ≤ 200 ∧
    (memInsert sampleRecord (List.replicate 200 sampleRecord)).length ≤ 200 ∧
    (memInsert sampleRecord (List.replicate 200 sampleRecord)).head? = some sampleRecord ∧
    ((List.replicate 200 sampleRecord).length = 200 →
      memInsert sampleRecord (List.replicate 200 sampleRecord) =
        (sampleRecord :: List.replicate 200 sampleRecord).dropLast) :=
  claim_C4_memory_store_bounded [] sampleRecord (List.replicate 200 sampleRecord)
    (by rw [List.length_replicate])

end ComplianceApp

namespace ComplianceApp

/-- A string starting with "Bearer " is nonempty, hence truthy. -/
theorem pyStartsWith_bearer_ne_empty (a : String) (h : pyStartsWith a "Bearer " = true) :
    a ≠ "" := by
  intro he
  subst he
  simp [pyStartsWith, charListPrefix] at h

/-- Reduction of resolveUserHeader on the Bearer path: the X-User header
plays no part. -/
theorem resolveUserHeader_bearer (verifyEncode : String → Option String)
    (xUser : Option String) (a : String)
    (hb : pyStartsWith a "Bearer " = true) :
    resolveUserHeader verifyEncode xUser (some a) =
      (match verifyEncode (pyDrop a 7) with
       | some encoded => .ok (some encoded)
       | none => .error ⟨401, "Invalid Google ID token"⟩) := by
  have ha := pyStartsWith_bearer_ne_empty a hb
  simp [resolveUserHeader, isTruthy, ha, hb]

/-- C5: a Bearer authorization value takes precedence over the X-User
header even when both are supplied; a failed token verification aborts
with 401 Invalid Google ID token without falling back to X-User and
stores nothing; with neither a Bearer token nor an X-User header the
request fails 401 unauthenticated with the store unchanged. -/
theorem claim_C5_identity_resolution_order (cfg : Config)
    (verifyEncode : String → Option String)
    (riskLevelResp : Option String) (putOk : Bool) (newId : String) (now : Int)
    (txn : Transaction) (store : List TransactionRecord)
    (a : String) (xUser : Option String) :
    (pyStartsWith a "Bearer " = true →
      create_transaction cfg verifyEncode riskLevelResp putOk newId now txn
          xUser (some a) store =
        create_transaction cfg verifyEncode riskLevelResp putOk newId now txn
          none (some a) store) ∧
    (pyStartsWith a "Bearer " = true → verifyEncode (pyDrop a 7) = none →
      create_transaction cfg verifyEncode riskLevelResp putOk newId now txn
          xUser (some a) store =
        (.error ⟨401, "Invalid Google ID token"⟩, store)) ∧
    (create_transaction cfg verifyEncode riskLevelResp putOk newId now txn
        none none store =
      (.error ⟨401,
        "Missing authentication. Provide Authorization Bearer token or X-User header."⟩,
       store)) := by
  refine ⟨?_, ?_, ?_⟩
  · intro hb
    unfold create_transaction
    rw [resolveUserHeader_bearer verifyEncode xUser a hb,
      resolveUserHeader_bearer verifyEncode none a hb]
  · intro hb hv
    unfold create_transaction
    rw [resolveUserHeader_bearer verifyEncode xUser a hb, hv]
  · rfl

/-- Witness for C5 with a failing verifier, both headers supplied. -/
theorem claim_C5_witness :
    (create_transaction ⟨false, none, 10000, "false"⟩ (fun _ => none) none true
        "id-1" 5 ⟨10000, "USD", "ACME"⟩ (some "bob") (some "Bearer tok") [] =
      create_transaction ⟨false, none, 10000, "false"⟩ (fun _ => none) none true
        "id-1" 5 ⟨10000, "USD", "ACME"⟩ none (some "Bearer tok") []) ∧
    (create_transaction ⟨false, none, 10000, "false"⟩ (fun _ => none) none true
        "id-1" 5 ⟨10000, "USD", "ACME"⟩ (some "bob") (some "Bearer tok") [] =
      (.error ⟨401, "Invalid Google ID token"⟩, [])) ∧
    (create_transaction ⟨false, none, 10000, "false"⟩ (fun _ => none) none true
        "id-1" 5 ⟨10000, "USD", "ACME"⟩ none none [] =
      (.error ⟨401,
        "Missing authentication. Provide Authorization Bearer token or X-User header."⟩,
       [])) :=
  ⟨(claim_C5_identity_resolution_order ⟨false, none, 10000, "false"⟩ (fun _ => none)
      none true "id-1" 5 ⟨10000, "USD", "ACME"⟩ [] "Bearer tok" (some "bob")).1
      (by decide),
   (claim_C5_identity_resolution_order ⟨false, none, 10000, "false"⟩ (fun _ => none)
      none true "id-1" 5 ⟨10000, "USD", "ACME"⟩ [] "Bearer tok" (some "bob")).2.1
      (by decide) rfl,
   (claim_C5_identity_resolution_order ⟨false, none, 10000, "false"⟩ (fun _ => none)
      none true "id-1" 5 ⟨10000, "USD", "ACME"⟩ [] "Bearer tok" (some "bob")).2.2⟩

/-- C6: with a durable table configured and no operator override, the
clear operation fails 403 and leaves the in-memory store intact;
otherwise it empties the in-memory store and reports success. -/
theorem claim_C6_clear_guard (cfg : Config) (store : List TransactionRecord) :
    (isTruthy cfg.ddbTable = true → parseAllowClear cfg.allowClearEnv = false →
      clear_transactions cfg store =
        (.error ⟨403,
          "Clearing DynamoDB-backed records is disabled in this environment."⟩,
         store)) ∧
    ((isTruthy cfg.ddbTable = false ∨ parseAllowClear cfg.allowClearEnv = true) →
      clear_transactions cfg store = (.ok (), [])) := by
  constructor
  · intro h1 h2
    simp [clear_transactions, h1, h2]
  · rintro (h | h) <;> simp [clear_transactions, h]

/-- Witness for C6: a guarded deployment refuses and keeps the data, a
memory-only deployment clears. -/
theorem claim_C6_witness :
    (clear_transactions ⟨true, some "tbl", 10000, "false"⟩ [sampleRecord] =
      (.error ⟨403,
        "Clearing DynamoDB-backed records is disabled in this environment."⟩,
       [sampleRecord])) ∧
    (clear_transactions ⟨false, none, 10000, "false"⟩ [sampleRecord] = (.ok (), [])) :=
  ⟨(claim_C6_clear_guard ⟨true, some "tbl", 10000, "false"⟩ [sampleRecord]).1
      (by decide) (by decide),
   (claim_C6_clear_guard ⟨false, none, 10000, "false"⟩ [sampleRecord]).2
      (Or.inl (by decide))⟩

end ComplianceApp

namespace ComplianceApp

/-- The retrieval phase never yields more than the requested limit. -/
theorem scan_transactions_length_le (cfg : Config)
    (ddbScan : Option (List TransactionRecord)) (limit : Nat)
    (store : List TransactionRecord) :
    (scan_transactions cfg ddbScan limit store).length ≤ limit := by
  unfold scan_transactions
  split
  · cases ddbScan
    · exact List.length_take_le limit store
    · exact List.length_take_le limit _
  · exact List.length_take_le limit store

/-- The per-record filter test, spelled out as a proposition. -/
theorem userMatches_iff (hdrEmail : Option String)
    (extractEmail : String → Option String) (xu u : String) :
    userMatches hdrEmail extractEmail xu u = true ↔
      (u ≠ "" ∧ (u = xu ∨ ∃ he se, hdrEmail = some he ∧ extractEmail u = some se ∧
        he ≠ "" ∧ se ≠ "" ∧ he = se)) := by
  cases hdrEmail with
  | none =>
    cases hse : extractEmail u <;>
      simp [userMatches, isTruthy, hse]
  | some he =>
    cases hse : extractEmail u with
    | none => simp [userMatches, isTruthy, hse]
    | some se =>
      simp [userMatches, isTruthy, hse]
      tauto

/-- C7: with an identity filter supplied, listing returns exactly the
scanned records whose identity equals the filter exactly or whose decoded
email matches the filter's decoded email, both being nonempty; records
with a missing identity, a non-matching identity or an undecodable
structure are excluded, and the operation is total (no error). -/
theorem claim_C7_filter_by_identity (cfg : Config)
    (ddbScan : Option (List TransactionRecord))
    (extractEmail : String → Option String) (limit : Nat)
    (store : List TransactionRecord) (xu : String) (r : TransactionRecord)
    (hxu : xu ≠ "") :
    list_transactions cfg ddbScan extractEmail limit (some xu) store =
      (scan_transactions cfg ddbScan limit store).filter
        (fun it => userMatches (extractEmail xu) extractEmail xu it.user) ∧
    (r ∈ list_transactions cfg ddbScan extractEmail limit (some xu) store ↔
      (r ∈ scan_transactions cfg ddbScan limit store ∧ r.user ≠ "" ∧
        (r.user = xu ∨ ∃ he se, extractEmail xu = some he ∧
          extractEmail r.user = some se ∧ he ≠ "" ∧ se ≠ "" ∧ he = se))) := by
  have hxt : isTruthy (some xu) = true := by simp [isTruthy, hxu]
  have heq : list_transactions cfg ddbScan extractEmail limit (some xu) store =
      (scan_transactions cfg ddbScan limit store).filter
        (fun it => userMatches (extractEmail xu) extractEmail xu it.user) := by
    simp only [list_transactions, hxt, if_true, Option.getD_some]
    exact List.take_of_length_le
      (le_trans (List.length_filter_le _ _)
        (scan_transactions_length_le cfg ddbScan limit store))
  refine ⟨heq, ?_⟩
  rw [heq, List.mem_filter, userMatches_iff (extractEmail xu) extractEmail xu r.user]

/-- Witness for C7 on a one-record store with no durable backend. -/
theorem claim_C7_witness :
    list_transactions ⟨false, none, 10000, "false"⟩ none (fun _ => none) 20
        (some "alice") [sampleRecord] =
      (scan_transactions ⟨false, none, 10000, "false"⟩ none 20
        [sampleRecord]).filter
        (fun it => userMatches ((fun _ => (none : Option String)) "alice")
          (fun _ => none) "alice" it.user) ∧
    (sampleRecord ∈ list_transactions ⟨false, none, 10000, "false"⟩ none
        (fun _ => none) 20 (some "alice") [sampleRecord] ↔
      (sampleRecord ∈ scan_transactions ⟨false, none, 10000, "false"⟩ none 20
          [sampleRecord] ∧ sampleRecord.user ≠ "" ∧
        (sampleRecord.user = "alice" ∨ ∃ he se,
          (fun _ => (none : Option String)) "alice" = some he ∧
          (fun _ => (none : Option String)) sampleRecord.user = some se ∧
          he ≠ "" ∧ se ≠ "" ∧ he = se))) :=
  claim_C7_filter_by_identity ⟨false, none, 10000, "false"⟩ none (fun _ => none)
    20 [sampleRecord] "alice" sampleRecord (by decide)

/-- The HTTP outcome of create_transaction does not depend on whether the
durable write succeeds. -/
theorem create_transaction_fst_indep (cfg : Config)
    (verifyEncode : String → Option String)
    (riskLevelResp : Option String) (putOk putOk2 : Bool)
    (newId : String) (now : Int) (txn : Transaction)
    (xUser authorization : Option String) (store : List TransactionRecord) :
    (create_transaction cfg verifyEncode riskLevelResp putOk newId now txn
        xUser authorization store).fst =
      (create_transaction cfg verifyEncode riskLevelResp putOk2 newId now txn
        xUser authorization store).fst := by
  unfold create_transaction
  cases resolveUserHeader verifyEncode xUser authorization with
  | error e => rfl
  | ok uh => cases htu : isTruthy uh <;> simp [htu]

/-- C8: save_transaction_record returns true exactly when the durable
backend is available, configured and the put succeeds; in every other
case the record goes to the front of the in-memory store and false is
returned, and the caller-visible outcome of create_transaction is
unaffected by the persistence result. -/
theorem claim_C8_save_reports_durable_persistence (cfg : Config)
    (putOk : Bool) (rec : TransactionRecord) (store : List TransactionRecord)
    (verifyEncode : String → Option String) (riskLevelResp : Option String)
    (newId : String) (now : Int) (txn : Transaction)
    (xUser authorization : Option String) :
    ((save_transaction_record cfg putOk rec store).fst = true ↔
      (cfg.boto3Available = true ∧ isTruthy cfg.ddbTable = true ∧ putOk = true)) ∧
    ((save_transaction_record cfg putOk rec store).fst = false →
      (save_transaction_record cfg putOk rec store).snd = memInsert rec store) ∧
    ((save_transaction_record cfg putOk rec store).fst = true →
      (save_transaction_record cfg putOk rec store).snd = store) ∧
    ((create_transaction cfg verifyEncode riskLevelResp putOk newId now txn
        xUser authorization store).fst =
      (create_transaction cfg verifyEncode riskLevelResp true newId now txn
        xUser authorization store).fst) := by
  refine ⟨?_, ?_, ?_,
    create_transaction_fst_indep cfg verifyEncode riskLevelResp putOk true
      newId now txn xUser authorization store⟩ <;>
    unfold save_transaction_record <;>
    cases hA : cfg.boto3Available <;> cases hB : isTruthy cfg.ddbTable <;>
      cases hC : putOk <;> simp

/-- Witness for C8: without boto3 the put is never attempted, the record
lands in memory and the response is the same as on a successful put. -/
theorem claim_C8_witness :
    ((save_transaction_record ⟨false, none, 10000, "false"⟩ true sampleRecord []).fst
        = true ↔
      (false = true ∧ isTruthy (none : Option String) = true ∧ true = true)) ∧
    ((save_transaction_record ⟨false, none, 10000, "false"⟩ true sampleRecord []).fst
        = false →
      (save_transaction_record ⟨false, none, 10000, "false"⟩ true sampleRecord []).snd
        = memInsert sampleRecord []) ∧
    ((save_transaction_record ⟨false, none, 10000, "false"⟩ true sampleRecord []).fst
        = true →
      (save_transaction_record ⟨false, none, 10000, "false"⟩ true sampleRecord []).snd
        = []) ∧
    ((create_transaction ⟨false, none, 10000, "false"⟩ (fun _ => none) none false
        "id-1" 5 ⟨10000, "USD", "ACME"⟩ (some "alice") none []).fst =
      (create_transaction ⟨false, none, 10000, "false"⟩ (fun _ => none) none true
        "id-1" 5 ⟨10000, "USD", "ACME"⟩ (some "alice") none []).fst) :=
  claim_C8_save_reports_durable_persistence ⟨false, none, 10000, "false"⟩ true
    sampleRecord [] (fun _ => none) none "id-1" 5 ⟨10000, "USD", "ACME"⟩
    (some "alice") none

/-- The DynamoDB sort yields timestamps in non-increasing order. -/
theorem sortByTimestampDesc_sorted (items : List TransactionRecord) :
    List.Pairwise (fun a b => b.timestamp ≤ a.timestamp)
      (sortByTimestampDesc items) := by
  have h := @List.sorted_mergeSort TransactionRecord
      (fun a b => decide (b.timestamp ≤ a.timestamp))
      (fun a b c hab hbc => by
        simp only [decide_eq_true_eq] at hab hbc ⊢
        omega)
      (fun a b => by
        rcases Int.le_total b.timestamp a.timestamp with hh | hh <;> simp [hh])
      items
  exact h.imp (fun hab => of_decide_eq_true hab)

/-- C9: the retrieval phase returns at most limit records; with the
durable backend the retrieved items are sorted by timestamp descending
and truncated to limit, falling back to the memory store's first limit
entries on a read failure; the memory backend returns the first limit
entries of the store. -/
theorem claim_C9_scan_limit_and_order (cfg : Config)
    (ddbScan : Option (List TransactionRecord)) (limit : Nat)
    (store : List TransactionRecord) :
    (scan_transactions cfg ddbScan limit store).length ≤ limit ∧
    (cfg.boto3Available = true → isTruthy cfg.ddbTable = true →
      ((∀ items, ddbScan = some items →
        scan_transactions cfg ddbScan limit store =
          (sortByTimestampDesc items).take limit ∧
        List.Pairwise (fun a b => b.timestamp ≤ a.timestamp)
          (scan_transactions cfg ddbScan limit store)) ∧
       (ddbScan = none →
        scan_transactions cfg ddbScan limit store = store.take limit))) ∧
    ((cfg.boto3Available = false ∨ isTruthy cfg.ddbTable = false) →
      scan_transactions cfg ddbScan limit store = store.take limit) := by
  refine ⟨scan_transactions_length_le cfg ddbScan limit store, ?_, ?_⟩
  · intro hb ht
    constructor
    · intro items hdd
      subst hdd
      have heq : scan_transactions cfg (some items) limit store =
          (sortByTimestampDesc items).take limit := by
        simp [scan_transactions, hb, ht]
      refine ⟨heq, ?_⟩
      rw [heq]
      exact List.Pairwise.sublist (List.take_sublist _ _)
        (sortByTimestampDesc_sorted items)
    · intro hdd
      subst hdd
      simp [scan_transactions, hb, ht]
  · rintro (h | h) <;> simp [scan_transactions, h]

/-- Witness for C9: a durable scan is sorted and truncated, a failed
durable read and a memory deployment both serve the store's prefix. -/
theorem claim_C9_witness :
    (scan_transactions ⟨true, some "tbl", 10000, "false"⟩
        (some [sampleRecord, ⟨"id-9", 9, "bob", 7, "USD", "ACME", "LOW", false⟩])
        20 [] =
      (sortByTimestampDesc
        [sampleRecord, ⟨"id-9", 9, "bob", 7, "USD", "ACME", "LOW", false⟩]).take 20) ∧
    List.Pairwise (fun a b => b.timestamp ≤ a.timestamp)
      (scan_transactions ⟨true, some "tbl", 10000, "false"⟩
        (some [sampleRecord, ⟨"id-9", 9, "bob", 7, "USD", "ACME", "LOW", false⟩])
        20 []) ∧
    (scan_transactions ⟨true, some "tbl", 10000, "false"⟩ none 20 [sampleRecord] =
      [sampleRecord].take 20) ∧
    (scan_transactions ⟨false, none, 10000, "false"⟩ none 20 [sampleRecord] =
      [sampleRecord].take 20) :=
  ⟨(((claim_C9_scan_limit_and_order ⟨true, some "tbl", 10000, "false"⟩
      (some [sampleRecord, ⟨"id-9", 9, "bob", 7, "USD", "ACME", "LOW", false⟩])
      20 []).2.1 rfl (by decide)).1
      [sampleRecord, ⟨"id-9", 9, "bob", 7, "USD", "ACME", "LOW", false⟩] rfl).1,
   (((claim_C9_scan_limit_and_order ⟨true, some "tbl", 10000, "false"⟩
      (some [sampleRecord, ⟨"id-9", 9, "bob", 7, "USD", "ACME", "LOW", false⟩])
      20 []).2.1 rfl (by decide)).1
      [sampleRecord, ⟨"id-9", 9, "bob", 7, "USD", "ACME", "LOW", false⟩] rfl).2,
   (((claim_C9_scan_limit_and_order ⟨true, some "tbl", 10000, "false"⟩ none 20
      [sampleRecord]).2.1 rfl (by decide)).2 rfl),
   ((claim_C9_scan_limit_and_order ⟨false, none, 10000, "false"⟩ none 20
      [sampleRecord]).2.2 (Or.inl rfl))⟩

/-- C10: when the durable table name is set but the client library is
unavailable, inserts fall back to the in-memory store and the retrieval
phase reads from it, yet the clear guard, which tests only the table
name, still refuses with 403 — those memory-resident records cannot be
cleared through the API. -/
theorem claim_C10_clear_guard_mismatch (cfg : Config) (putOk : Bool)
    (rec : TransactionRecord) (store : List TransactionRecord)
    (ddbScan : Option (List TransactionRecord)) (limit : Nat)
    (hb : cfg.boto3Available = false)
    (ht : isTruthy cfg.ddbTable = true)
    (hc : parseAllowClear cfg.allowClearEnv = false) :
    save_transaction_record cfg putOk rec store = (false, memInsert rec store) ∧
    scan_transactions cfg ddbScan limit store = store.take limit ∧
    clear_transactions cfg store =
      (.error ⟨403,
        "Clearing DynamoDB-backed records is disabled in this environment."⟩,
       store) := by
  refine ⟨?_, ?_, ?_⟩
  · simp [save_transaction_record, hb]
  · simp [scan_transactions, hb]
  · simp [clear_transactions, ht, hc]

/-- Witness for C10: table name set, boto3 missing, no override. -/
theorem claim_C10_witness :
    save_transaction_record ⟨false, some "tbl", 10000, "false"⟩ true sampleRecord
        [sampleRecord]
      = (false, memInsert sampleRecord [sampleRecord]) ∧
    scan_transactions ⟨false, some "tbl", 10000, "false"⟩ none 20 [sampleRecord] =
      [sampleRecord].take 20 ∧
    clear_transactions ⟨false, some "tbl", 10000, "false"⟩ [sampleRecord] =
      (.error ⟨403,
        "Clearing DynamoDB-backed records is disabled in this environment."⟩,
       [sampleRecord]) :=
  claim_C10_clear_guard_mismatch ⟨false, some "tbl", 10000, "false"⟩ true
    sampleRecord [sampleRecord] none 20 rfl (by decide) (by decide)

end ComplianceApp
